import Mathlib

/-!
# StyleAI — verification of the body-shape / outfit-recommendation core

Shallow embedding of the two source modules that carry all of the logic the
specification covers:

* `src/server/src/style_engine/recommendation_engine.py` — the measurement
  data model, the threshold body-shape classifier `determine_body_shape`,
  the static `STYLING_RULES` knowledge base, and the occasion-branching
  generator `generate_outfit_recommendations`.
* `src/server/src/body_measurement/body_scanner.py` — the landmark-based
  ratio calculator `calculate_body_ratios`, the waist estimator
  `_estimate_waist_width`, and `convert_ratios_to_measurements`.

Modelling conventions:

* Python floats are modelled as exact rationals (`ℚ`).  Every numeric
  constant in the source (thresholds 25 and 5, the coefficient 0.75, the
  reference value 36.0) is dyadic, so at each concrete input examined below
  the float computation and the rational computation agree exactly.
* A Python expression that can raise `ZeroDivisionError` is modelled with
  the checked division `pydiv`, so a fallible computation has type
  `Option _` and `none` means "the source raises".  Divisions that the
  source structurally guards (an `if denom > 0` around the division) are
  modelled with ordinary rational division inside the same guard, which is
  faithful because the guarded branch cannot fault.
* `math.sqrt` returns an irrational number in general, so the scanner
  functions are parametrised over the square-root routine
  `sqrt : ℚ → ℚ`.  Theorems about the scanner are proved for every such
  routine; concrete evaluations instantiate it with `ratSqrt`, which
  agrees with the exact square root on the perfect-square inputs used.
* Python's short-circuit `and` inside the `if/elif` chain of
  `determine_body_shape` is modelled by nesting: a conjunct containing a
  division is evaluated only once the earlier conjuncts of its rule hold.
-/

namespace StyleAI

/-! ## Data model (recommendation_engine.py) -/

inductive StylePreference
  | CASUAL
  | FORMAL
  | TRENDY
  | MINIMALIST
  | BOHEMIAN
  | CLASSIC
deriving DecidableEq

def StylePreference.value : StylePreference → String
  | .CASUAL => "casual"
  | .FORMAL => "formal"
  | .TRENDY => "trendy"
  | .MINIMALIST => "minimalist"
  | .BOHEMIAN => "bohemian"
  | .CLASSIC => "classic"

inductive BudgetRange
  | LOW
  | MID
  | HIGH
deriving DecidableEq

inductive BodyType
  | TRIANGLE
  | HOURGLASS
  | RECTANGLE
  | INVERTED_TRIANGLE
deriving DecidableEq

def BodyType.value : BodyType → String
  | .TRIANGLE => "triangle"
  | .HOURGLASS => "hourglass"
  | .RECTANGLE => "rectangle"
  | .INVERTED_TRIANGLE => "inverted_triangle"

/-- Python's `str()` of a `BodyType` member, as interpolated by the f-string
in the generator's error message. -/
def BodyType.pystr : BodyType → String
  | .TRIANGLE => "BodyType.TRIANGLE"
  | .HOURGLASS => "BodyType.HOURGLASS"
  | .RECTANGLE => "BodyType.RECTANGLE"
  | .INVERTED_TRIANGLE => "BodyType.INVERTED_TRIANGLE"

inductive SkinTone
  | WARM
  | COOL
  | NEUTRAL
deriving DecidableEq

inductive Occasion
  | EVERYDAY
  | WORK
  | DATE
  | PARTY
  | FORMAL_EVENT
  | WORKOUT
deriving DecidableEq

def Occasion.value : Occasion → String
  | .EVERYDAY => "everyday"
  | .WORK => "work"
  | .DATE => "date"
  | .PARTY => "party"
  | .FORMAL_EVENT => "formal_event"
  | .WORKOUT => "workout"

/-- `BodyMeasurements` dataclass: user body measurements in inches. -/
structure BodyMeasurements where
  shoulders : ℚ
  bust : ℚ
  waist : ℚ
  hips : ℚ
deriving DecidableEq

/-- `UserProfile` dataclass: semi-permanent user attributes. -/
structure UserProfile where
  body_type : BodyType
  measurements : Option BodyMeasurements
  skin_tone : Option SkinTone
  age_range : Option String
  gender_style : Option String

/-- `UserPreferences` dataclass: changeable user choices and context. -/
structure UserPreferences where
  favorite_colors : List String
  style_preference : StylePreference
  budget_range : BudgetRange
  occasion : Occasion
  disliked_colors : Option (List String)
  preferred_brands : Option (List String)
  avoided_brands : Option (List String)

/-! ## Checked division

Python raises `ZeroDivisionError` on `x / 0.0`; `pydiv` returns `none`
exactly there. -/

def pydiv (a b : ℚ) : Option ℚ :=
  if b = 0 then none else some (a / b)

theorem pydiv_of_ne (a b : ℚ) (hb : b ≠ 0) : pydiv a b = some (a / b) := by
  simp [pydiv, hb]

/-! ## Body-shape classifier (`determine_body_shape`)

The four derived quantities computed at the top of the source function.
The three `*_ratio` locals are guarded in the source
(`waist / shoulders if shoulders > 0 else 1`, etc.), so they are total;
the percentage-difference divisions are not guarded. -/

def waist_to_shoulders_ratio (m : BodyMeasurements) : ℚ :=
  if 0 < m.shoulders then m.waist / m.shoulders else 1

def waist_to_hips_ratio (m : BodyMeasurements) : ℚ :=
  if 0 < m.hips then m.waist / m.hips else 1

def hips_to_shoulders_ratio (m : BodyMeasurements) : ℚ :=
  if 0 < m.shoulders then m.hips / m.shoulders else 1

def waist_reduction_shoulders (m : BodyMeasurements) : ℚ :=
  (1 - waist_to_shoulders_ratio m) * 100

def waist_reduction_hips (m : BodyMeasurements) : ℚ :=
  (1 - waist_to_hips_ratio m) * 100

def hips_larger_than_shoulders (m : BodyMeasurements) : ℚ :=
  (hips_to_shoulders_ratio m - 1) * 100

/-- The unguarded `abs(shoulders - hips) / max(shoulders, hips) * 100`
(specification-side total version; the classifier itself computes it with
`pydiv`). -/
def shoulder_hip_diff_pct (m : BodyMeasurements) : ℚ :=
  |m.shoulders - m.hips| / max m.shoulders m.hips * 100

/-- The unguarded `abs(shoulders - bust) / max(shoulders, bust) * 100` of
rule 1 (specification-side total version). -/
def shoulder_bust_diff_pct (m : BodyMeasurements) : ℚ :=
  |m.shoulders - m.bust| / max m.shoulders m.bust * 100

/-- Rule 1 of the decision chain (rectangle). -/
def rectangle_rule (m : BodyMeasurements) : Prop :=
  waist_reduction_shoulders m < 25 ∧ shoulder_hip_diff_pct m ≤ 5 ∧
    shoulder_bust_diff_pct m ≤ 5

/-- Rule 2 of the decision chain (hourglass). -/
def hourglass_rule (m : BodyMeasurements) : Prop :=
  25 ≤ waist_reduction_shoulders m ∧ 25 ≤ waist_reduction_hips m ∧
    shoulder_hip_diff_pct m ≤ 5

/-- Rule 3 of the decision chain (triangle). -/
def triangle_rule (m : BodyMeasurements) : Prop :=
  5 ≤ hips_larger_than_shoulders m

/-- Rule 4 of the decision chain (inverted triangle). -/
def inverted_triangle_rule (m : BodyMeasurements) : Prop :=
  m.shoulders > m.hips ∧ 5 ≤ (m.shoulders - m.hips) / m.hips * 100

/-- The `elif` chain after rule 1 has failed: rules 2-4 and the default.
Rule 4 contains the unguarded division `(shoulders - hips) / hips`,
evaluated (per Python short-circuit `and`) only when `shoulders > hips`. -/
def classify_tail (m : BodyMeasurements) (shoulder_hip_diff : ℚ) : Option BodyType :=
  if 25 ≤ waist_reduction_shoulders m ∧ 25 ≤ waist_reduction_hips m ∧
      shoulder_hip_diff ≤ 5 then
    some BodyType.HOURGLASS
  else if 5 ≤ hips_larger_than_shoulders m then
    some BodyType.TRIANGLE
  else if m.shoulders > m.hips then
    (pydiv (m.shoulders - m.hips) m.hips).bind fun q =>
      if 5 ≤ q * 100 then some BodyType.INVERTED_TRIANGLE
      else some BodyType.RECTANGLE
  else
    some BodyType.RECTANGLE

/-- `determine_body_shape`: threshold classification of a measurement
quadruple.  `none` models a `ZeroDivisionError` escaping the source
function.  The source computes `shoulder_hip_diff` unconditionally before
the rule chain, so `max(shoulders, hips) = 0` faults regardless of which
rule would fire; rule 1's third conjunct divides by
`max(shoulders, bust)` only after its first two conjuncts hold. -/
def determine_body_shape (m : BodyMeasurements) : Option BodyType :=
  (pydiv |m.shoulders - m.hips| (max m.shoulders m.hips)).bind fun d =>
    let shoulder_hip_diff := d * 100
    if waist_reduction_shoulders m < 25 ∧ shoulder_hip_diff ≤ 5 then
      (pydiv |m.shoulders - m.bust| (max m.shoulders m.bust)).bind fun sb =>
        if sb * 100 ≤ 5 then some BodyType.RECTANGLE
        else classify_tail m shoulder_hip_diff
    else classify_tail m shoulder_hip_diff

/-! ## Body scanner (body_scanner.py)

The scanner's geometry uses `math.sqrt`; every definition below is
parametrised over the square-root routine `sqrt : ℚ → ℚ`, and the theorems
about the scanner hold for every such routine.  Concrete evaluations
instantiate `sqrt` with `ratSqrt`, which agrees with the exact square root
on the perfect-square inputs they use. -/

inductive PhotoAngle
  | FRONT
  | SIDE
  | BACK
deriving DecidableEq

/-- A 2-D landmark coordinate pair `(x, y)`. -/
structure Point where
  x : ℚ
  y : ℚ
deriving DecidableEq

/-- `BodyLandmarks` dataclass: pose landmarks for body measurement
analysis. -/
structure BodyLandmarks where
  angle : PhotoAngle
  landmarks : List Point
  image_width : ℕ
  image_height : ℕ
  confidence : ℚ

/-- `BodyRatios` dataclass: calculated body ratios from pose analysis. -/
structure BodyRatios where
  shoulder_to_hip_ratio : ℚ
  waist_to_hip_ratio : ℚ
  waist_to_shoulder_ratio : ℚ
  shoulder_width_pixels : ℚ
  waist_width_pixels : ℚ
  hip_width_pixels : ℚ
deriving DecidableEq

/-- `_calculate_distance`: Euclidean distance between two points,
`sqrt((x2-x1)^2 + (y2-y1)^2)`. -/
def _calculate_distance (sqrt : ℚ → ℚ) (point1 point2 : Point) : ℚ :=
  sqrt ((point2.x - point1.x) ^ 2 + (point2.y - point1.y) ^ 2)

/-- Default for out-of-range list access.  Every landmark access in the
source sits behind the `len(landmarks) >= 25` guard, so the default is
never actually consulted where the functions below are applied. -/
def origin : Point := ⟨0, 0⟩

/-- The `shoulder_width` local of `calculate_body_ratios`: distance
between landmarks 11 and 12 (left and right shoulder). -/
def shoulder_width (sqrt : ℚ → ℚ) (fl : BodyLandmarks) : ℚ :=
  _calculate_distance sqrt (fl.landmarks.getD 11 origin) (fl.landmarks.getD 12 origin)

/-- The `hip_width` local of `calculate_body_ratios`: distance between
landmarks 23 and 24 (left and right hip). -/
def hip_width (sqrt : ℚ → ℚ) (fl : BodyLandmarks) : ℚ :=
  _calculate_distance sqrt (fl.landmarks.getD 23 origin) (fl.landmarks.getD 24 origin)

/-- `_estimate_waist_width`: the source computes a `waist_y` height
estimate (60% of the way from shoulders to hips) but never uses it, then
returns `shoulder_width * 0.75` (the fixed empirical coefficient). -/
def _estimate_waist_width (sqrt : ℚ → ℚ) (fl : BodyLandmarks) : ℚ :=
  shoulder_width sqrt fl * 0.75

/-- `calculate_body_ratios`: `None` if fewer than 25 landmarks are present
(Python `len(front_landmarks.landmarks) < 25`); otherwise a fully
populated `BodyRatios` with each of the three ratios guarded against a
zero denominator by a `1.0` fallback. -/
def calculate_body_ratios (sqrt : ℚ → ℚ) (front_landmarks : BodyLandmarks) :
    Option BodyRatios :=
  if front_landmarks.landmarks.length < 25 then none
  else
    let sw := shoulder_width sqrt front_landmarks
    let hw := hip_width sqrt front_landmarks
    let ww := _estimate_waist_width sqrt front_landmarks
    some
      { shoulder_to_hip_ratio := if 0 < hw then sw / hw else 1
        waist_to_hip_ratio := if 0 < hw then ww / hw else 1
        waist_to_shoulder_ratio := if 0 < sw then ww / sw else 1
        shoulder_width_pixels := sw
        waist_width_pixels := ww
        hip_width_pixels := hw }

/-- `convert_ratios_to_measurements`: scales the ratios by the reference
measurement (the source's default argument is `36.0`).  The source line
`hips = shoulders / ratios.shoulder_to_hip_ratio` performs an UNGUARDED
division, modelled with `pydiv`: a zero `shoulder_to_hip_ratio` raises
`ZeroDivisionError` (`none`). -/
def convert_ratios_to_measurements (ratios : BodyRatios)
    (reference_measurement : ℚ) : Option BodyMeasurements :=
  let shoulders := reference_measurement
  (pydiv shoulders ratios.shoulder_to_hip_ratio).bind fun hips =>
    let waist := shoulders * ratios.waist_to_shoulder_ratio
    let bust := shoulders
    some ⟨shoulders, bust, waist, hips⟩

/-- Integer square root by bounded search; kernel-reducible stand-in used
to instantiate the `sqrt` parameter at concrete inputs.  Exact on perfect
squares. -/
def natSqrt (n : ℕ) : ℕ :=
  (List.range (n + 1)).foldl (fun acc k => if k * k ≤ n then k else acc) 0

/-- Rational square-root stand-in for `math.sqrt`: exact on rationals
whose numerator and denominator are perfect squares (all concrete inputs
below are such). -/
def ratSqrt (q : ℚ) : ℚ :=
  (natSqrt q.num.toNat : ℚ) / (natSqrt q.den : ℚ)

/-- Landmark list of a degenerate front view: both shoulder landmarks at
the origin (coincident), hip landmarks at `(0,0)` and `(4,0)`; 25 points
in total. -/
def degenerate_landmarks : BodyLandmarks :=
  ⟨PhotoAngle.FRONT,
   [origin, origin, origin, origin, origin, origin, origin, origin,
    origin, origin, origin, origin, origin, origin, origin, origin,
    origin, origin, origin, origin, origin, origin, origin, origin,
    ⟨4, 0⟩],
   640, 480, 1⟩

/-! ## Styling knowledge base (`STYLING_RULES`)

The source table is a nested dict literal.  Keys that are present in
every entry (`description`, `goals`, `tops.best`, the four `bottoms`
lists, `dresses`, `colors`) are plain fields; keys present only in some
entries (`tops.necklines`, `tops.sleeves`, `tops.details`, `tops.avoid`)
are `Option` fields, `none` meaning the dict key is absent, matching the
`.get(key, default)` accesses in the generator.  The extra keys
(`blazers`, `jumpsuits`, `coats`, `outerwear`) are read nowhere in the
repository and are not modelled. -/

/-- The `colors` sub-dict of a styling rule (keys `do` / `avoid`; `do` is
a reserved word in Lean, hence the field name `dos`). -/
structure ColorsRule where
  dos : String
  avoid : String
deriving DecidableEq

/-- The `tops` sub-dict of a styling rule. -/
structure TopsRule where
  best : List String
  necklines : Option (List String)
  sleeves : Option (List String)
  details : Option (List String)
  avoid : Option (List String)
deriving DecidableEq

/-- The `bottoms` sub-dict of a styling rule (all four keys are present
in every entry of the source table). -/
structure BottomsRule where
  pants : List String
  jeans : List String
  skirts : List String
  shorts : List String
deriving DecidableEq

/-- One entry of `STYLING_RULES`. -/
structure StylingRule where
  description : String
  goals : List String
  tops : TopsRule
  bottoms : BottomsRule
  dresses : List String
  colors : ColorsRule
deriving DecidableEq

def rectangle_styling : StylingRule :=
  { description := "Straight silhouette with similar bust and hip measurements"
    goals := ["Create curves", "Define waist", "Add volume to upper and lower body"]
    tops :=
      { best := ["tank tops", "wrap tops", "cowl camisole", "belted tops", "button-downs"]
        necklines := some ["scoop", "v-neck", "bateau", "off-shoulder", "sweetheart",
          "halter", "turtleneck", "crew", "cowl"]
        sleeves := none
        details := none
        avoid := some ["shapeless oversized pieces", "cropped tops at waist"] }
    bottoms :=
      { pants := ["cargo pants", "harem pants", "wide leg", "bootcut", "turn-up"]
        jeans := ["slim", "straight", "bootcut", "wide leg", "trouser style"]
        skirts := ["circle", "a-line", "bubble", "layered", "pencil", "pleated",
          "paneled", "trumpet", "straight", "gathered waist"]
        shorts := ["bubble", "flared", "belted", "patterned", "loose", "turn-up",
          "paperbag waist"] }
    dresses := ["wrap", "x-line", "shift", "empire", "princess seam", "a-line",
      "fit and flared", "one shoulder", "puff sleeves", "ruched waist"]
    colors :=
      { dos := "Bold and bright colors for upper and lower body, dark belts for waist definition"
        avoid := "Bold colors around waist area" } }

def hourglass_styling : StylingRule :=
  { description := "Balanced shoulders and hips with defined waist"
    goals := ["Maintain natural curves", "Accentuate waist", "Keep proportions balanced"]
    tops :=
      { best := ["fitted shirts", "wrap shirts", "belted shirts", "peplum", "keyhole"]
        necklines := some ["scoop", "v-neck", "off-shoulder", "jewel", "oval",
          "sweetheart", "queen anne"]
        sleeves := some ["set-in", "fitted", "bishop", "sleeveless"]
        details := none
        avoid := some ["heavy embroidery", "shoulder pads", "bulky details around bust"] }
    bottoms :=
      { pants := ["high/mid-rise styles that define waist"]
        jeans := ["straight", "bootleg", "wide", "slim", "flared", "high/mid-rise"]
        skirts := ["full", "pencil", "gored", "a-line", "tulip"]
        shorts := ["tapered", "structured", "bermuda", "flared", "loose"] }
    dresses := ["bias", "peplum", "shift", "wrap", "corset", "sheath"]
    colors :=
      { dos := "Simple, minimalistic pieces in solid colors"
        avoid := "Overwhelming patterns that hide natural curves" } }

def triangle_styling : StylingRule :=
  { description := "Hips wider than shoulders with defined waist"
    goals := ["Balance proportions", "Add volume to upper body", "Minimize lower body volume"]
    tops :=
      { best := ["wrap bust", "slim fit", "cropped around hipline", "tie necks"]
        necklines := some ["bateau", "boat", "cowl", "off-shoulder", "heart", "sabrina",
          "sweetheart", "crew", "slash", "turtle"]
        sleeves := some ["petal", "batwing", "cap", "tapered", "flutter", "juliet"]
        details := some ["horizontal stripes", "bold patterns", "shoulder details"]
        avoid := none }
    bottoms :=
      { pants := ["high/mid rise", "flare", "bootcut", "straight", "wide-leg"]
        jeans := ["straight", "bootcut", "flare leg", "high/mid-rise", "wide-leg"]
        skirts := ["a-line", "bias", "tulip", "straight", "wrap", "asymmetrical", "circle"]
        shorts := ["high/mid-rise", "belted", "flare", "straight"] }
    dresses := ["tulip", "a-line", "x-line", "empire", "off-shoulder", "wrap", "belted"]
    colors :=
      { dos := "Light and bright colors for upper body, darker shades for lower body"
        avoid := "Bold details around hips" } }

def inverted_triangle_styling : StylingRule :=
  { description := "Shoulders broader than hips with athletic build"
    goals := ["Balance broad shoulders", "Add volume to lower body", "Create hip curves"]
    tops :=
      { best := ["soft flowing fabrics", "minimal shoulder details", "v-necks", "scoop necks"]
        necklines := none
        sleeves := none
        details := none
        avoid := some ["shoulder pads", "boat necks", "off-shoulder",
          "horizontal stripes on top"] }
    bottoms :=
      { pants := ["wide leg", "flare", "bootcut", "palazzo", "straight with details"]
        jeans := ["flare", "wide leg", "bootcut", "boyfriend", "baggy"]
        skirts := ["a-line", "circle", "pleated", "flare", "full", "layered"]
        shorts := ["wide", "flare", "pleated", "cargo", "palazzo"] }
    dresses := ["a-line", "fit and flare", "empire waist", "wrap",
      "off-shoulder (if balancing with volume below)"]
    colors :=
      { dos := "Darker colors on top, brighter colors on bottom"
        avoid := "Bold patterns or light colors that emphasize shoulders" } }

/-- The `STYLING_RULES` dict: `none` models a missing key (`dict.get`
returning `None` in the generator's lookup).  Every `BodyType` member is
mapped. -/
def STYLING_RULES : BodyType → Option StylingRule
  | BodyType.RECTANGLE => some rectangle_styling
  | BodyType.HOURGLASS => some hourglass_styling
  | BodyType.TRIANGLE => some triangle_styling
  | BodyType.INVERTED_TRIANGLE => some inverted_triangle_styling

/-! ## Outfit generator (`generate_outfit_recommendations`) -/

/-- `_select_from_list`: first item of the list, or the default when the
list is empty. -/
def _select_from_list (items : List String) (default : String) : String :=
  match items with
  | [] => default
  | x :: _ => x

/-- The `styling_tips` sub-dict of the generator's output. -/
structure StylingTips where
  colors : ColorsRule
  necklines : List String
  avoid : List String
deriving DecidableEq

/-- The generator's output dict, flattened: `body_shape`, `occasion` and
`style_preference` are the `.value` strings; `description` and
`styling_goals` come from the nested `recommendations` dict; `outfit` is
the occasion-dependent slot mapping in source insertion order. -/
structure OutfitRecommendation where
  body_shape : String
  occasion : String
  style_preference : String
  description : String
  styling_goals : List String
  outfit : List (String × String)
  styling_tips : StylingTips
deriving DecidableEq

/-- `generate_outfit_recommendations`: looks up the styling rule for the
profile's body type (error dict `{"error": ...}` modelled as
`Except.error` when absent), then branches on the occasion into exactly
four outfit policies, and appends the styling tips
(`rules["tops"].get("necklines", [])` and `rules["tops"].get("avoid", [])`
defaulting to the empty list when the key is absent). -/
def generate_outfit_recommendations (user_profile : UserProfile)
    (preferences : UserPreferences) : Except String OutfitRecommendation :=
  let body_shape := user_profile.body_type
  let occasion := preferences.occasion
  let style_pref := preferences.style_preference
  match STYLING_RULES body_shape with
  | none =>
      Except.error ("No styling rules found for body shape: " ++ body_shape.pystr)
  | some rules =>
      let outfit_items : List (String × String) :=
        if occasion ∈ [Occasion.WORK, Occasion.FORMAL_EVENT] then
          [("top", _select_from_list rules.tops.best "blazer or button-down"),
           ("bottom", _select_from_list rules.bottoms.pants "tailored pants"),
           ("dress_alternative", _select_from_list rules.dresses "sheath dress"),
           ("shoes", "professional heels or flats"),
           ("accessories", "minimal jewelry, structured bag")]
        else if occasion = Occasion.PARTY then
          [("dress", _select_from_list rules.dresses "cocktail dress"),
           ("top_alternative", _select_from_list rules.tops.best "dressy top"),
           ("bottom_alternative", _select_from_list rules.bottoms.skirts "dressy skirt"),
           ("shoes", "heels or dressy sandals"),
           ("accessories", "statement jewelry")]
        else if occasion = Occasion.DATE then
          [("dress", _select_from_list rules.dresses "wrap dress"),
           ("top_alternative", _select_from_list rules.tops.best "fitted top"),
           ("bottom_alternative", _select_from_list rules.bottoms.jeans "nice jeans"),
           ("shoes", "heels or ankle boots"),
           ("accessories", "delicate jewelry")]
        else
          [("top", _select_from_list rules.tops.best "casual top"),
           ("bottom", _select_from_list rules.bottoms.jeans "jeans"),
           ("shoes", "sneakers or comfortable flats"),
           ("accessories", "casual bag, minimal jewelry")]
      Except.ok
        { body_shape := body_shape.value
          occasion := occasion.value
          style_preference := style_pref.value
          description := rules.description
          styling_goals := rules.goals
          outfit := outfit_items
          styling_tips :=
            { colors := rules.colors
              necklines := rules.tops.necklines.getD []
              avoid := rules.tops.avoid.getD [] } }

/-! ## Helper lemmas for the classifier -/

instance (m : BodyMeasurements) : Decidable (rectangle_rule m) := by
  unfold rectangle_rule; infer_instance

instance (m : BodyMeasurements) : Decidable (hourglass_rule m) := by
  unfold hourglass_rule; infer_instance

instance (m : BodyMeasurements) : Decidable (triangle_rule m) := by
  unfold triangle_rule; infer_instance

instance (m : BodyMeasurements) : Decidable (inverted_triangle_rule m) := by
  unfold inverted_triangle_rule; infer_instance

/-- Specification-side restatement of the decision chain as a total
function: first matching rule wins, `RECTANGLE` is the default. -/
def classify_spec (m : BodyMeasurements) : BodyType :=
  if rectangle_rule m then BodyType.RECTANGLE
  else if hourglass_rule m then BodyType.HOURGLASS
  else if triangle_rule m then BodyType.TRIANGLE
  else if inverted_triangle_rule m then BodyType.INVERTED_TRIANGLE
  else BodyType.RECTANGLE

/-- With a nonzero hip measurement, the `elif` tail of the decision chain
does not fault and agrees with its first-match reading. -/
theorem classify_tail_eq (m : BodyMeasurements) (h3 : m.hips ≠ 0) :
    classify_tail m (|m.shoulders - m.hips| / max m.shoulders m.hips * 100) =
      some (if hourglass_rule m then BodyType.HOURGLASS
        else if triangle_rule m then BodyType.TRIANGLE
        else if inverted_triangle_rule m then BodyType.INVERTED_TRIANGLE
        else BodyType.RECTANGLE) := by
  simp only [classify_tail, hourglass_rule, triangle_rule, inverted_triangle_rule,
    shoulder_hip_diff_pct, pydiv_of_ne _ _ h3, Option.some_bind]
  by_cases hH : 25 ≤ waist_reduction_shoulders m ∧ 25 ≤ waist_reduction_hips m ∧
      |m.shoulders - m.hips| / max m.shoulders m.hips * 100 ≤ 5
  · simp [hH]
  · simp only [if_neg hH]
    by_cases hT : 5 ≤ hips_larger_than_shoulders m
    · simp [hT]
    · simp only [if_neg hT]
      by_cases hG : m.shoulders > m.hips
      · by_cases hI : 5 ≤ (m.shoulders - m.hips) / m.hips * 100
        · simp [hG, hI]
        · simp [hG, hI]
      · simp [hG]

/-- Whenever the three unguarded denominators of `determine_body_shape`
are nonzero, the classifier does not fault and agrees with the
first-match specification `classify_spec`. -/
theorem determine_body_shape_eq_classify_spec (m : BodyMeasurements)
    (h1 : max m.shoulders m.hips ≠ 0) (h2 : max m.shoulders m.bust ≠ 0)
    (h3 : m.hips ≠ 0) :
    determine_body_shape m = some (classify_spec m) := by
  have htail := classify_tail_eq m h3
  simp only [determine_body_shape, pydiv_of_ne _ _ h1, Option.some_bind]
  by_cases hAB : waist_reduction_shoulders m < 25 ∧
      |m.shoulders - m.hips| / max m.shoulders m.hips * 100 ≤ 5
  · simp only [if_pos hAB, pydiv_of_ne _ _ h2, Option.some_bind]
    by_cases hC : |m.shoulders - m.bust| / max m.shoulders m.bust * 100 ≤ 5
    · have hrect : rectangle_rule m := ⟨hAB.1, hAB.2, hC⟩
      simp [classify_spec, hrect, hC]
    · have hrect : ¬ rectangle_rule m := fun h => hC h.2.2
      simp only [if_neg hC, htail, classify_spec, if_neg hrect]
  · have hrect : ¬ rectangle_rule m := fun h => hAB ⟨h.1, h.2.1⟩
    simp only [if_neg hAB, htail, classify_spec, if_neg hrect]

/-! ## Claim theorems -/

/-- C1: for each of the four canonical measurement quadruples, the
body-shape classifier returns exactly the stated category:
(36,36,30,36) gives RECTANGLE, (36,36,26,36) gives HOURGLASS,
(34,34,28,38) gives TRIANGLE and (38,36,30,34) gives INVERTED_TRIANGLE
(quadruples written as shoulders, bust, waist, hips).  `determine_body_shape`
is a pure function of its argument, so repeated calls with the same
quadruple return the same result by definition. -/
theorem classifier_canonical_vectors :
    determine_body_shape ⟨36, 36, 30, 36⟩ = some BodyType.RECTANGLE ∧
    determine_body_shape ⟨36, 36, 26, 36⟩ = some BodyType.HOURGLASS ∧
    determine_body_shape ⟨34, 34, 28, 38⟩ = some BodyType.TRIANGLE ∧
    determine_body_shape ⟨38, 36, 30, 34⟩ = some BodyType.INVERTED_TRIANGLE := by
  refine ⟨?_, ?_, ?_, ?_⟩ <;>
    norm_num [determine_body_shape, classify_tail, pydiv, waist_reduction_shoulders,
      waist_to_shoulders_ratio, waist_reduction_hips, waist_to_hips_ratio,
      hips_larger_than_shoulders, hips_to_shoulders_ratio]

/-- C2: for every positive measurement quadruple the classifier returns
exactly one `BodyType` and never raises (every division it performs has a
nonzero denominator), and when none of the four threshold rules matches
the returned value is the default `RECTANGLE`. -/
theorem classifier_total_on_positive (m : BodyMeasurements)
    (hs : 0 < m.shoulders) (hb : 0 < m.bust) (hw : 0 < m.waist)
    (hh : 0 < m.hips) :
    (∃ t, determine_body_shape m = some t) ∧
    (¬ rectangle_rule m ∧ ¬ hourglass_rule m ∧ ¬ triangle_rule m ∧
        ¬ inverted_triangle_rule m →
      determine_body_shape m = some BodyType.RECTANGLE) := by
  have h1 : max m.shoulders m.hips ≠ 0 := ne_of_gt (lt_max_of_lt_left hs)
  have h2 : max m.shoulders m.bust ≠ 0 := ne_of_gt (lt_max_of_lt_left hs)
  have heq := determine_body_shape_eq_classify_spec m h1 h2 (ne_of_gt hh)
  refine ⟨⟨classify_spec m, heq⟩, fun hnone => ?_⟩
  rw [heq]
  simp [classify_spec, hnone.1, hnone.2.1, hnone.2.2.1, hnone.2.2.2]

/-- Witness for C2 at the concrete positive quadruple (2, 2, 1, 2). -/
theorem classifier_total_on_positive_witness :
    (∃ t, determine_body_shape ⟨2, 2, 1, 2⟩ = some t) ∧
    (¬ rectangle_rule ⟨2, 2, 1, 2⟩ ∧ ¬ hourglass_rule ⟨2, 2, 1, 2⟩ ∧
        ¬ triangle_rule ⟨2, 2, 1, 2⟩ ∧ ¬ inverted_triangle_rule ⟨2, 2, 1, 2⟩ →
      determine_body_shape ⟨2, 2, 1, 2⟩ = some BodyType.RECTANGLE) :=
  classifier_total_on_positive ⟨2, 2, 1, 2⟩ (by norm_num) (by norm_num)
    (by norm_num) (by norm_num)

/-- C4 counterexample: the percentage-difference division
`abs(shoulders - hips) / max(shoulders, hips)` and the rule-4 division
`(shoulders - hips) / hips` are NOT guarded, so the classifier faults
(`ZeroDivisionError`, modelled as `none`) at the quadruple with
shoulders = hips = 0 (it faults computing `shoulder_hip_diff`) and at
(10, 10, 5, 0) (it reaches rule 4 with `hips = 0`), contradicting the
claim that no division-by-zero fault occurs for any quadruple including
those with zero components. -/
theorem classifier_zero_denominator_faults :
    determine_body_shape ⟨0, 0, 0, 0⟩ = none ∧
    determine_body_shape ⟨10, 10, 5, 0⟩ = none := by
  constructor
  · decide
  · norm_num [determine_body_shape, classify_tail, pydiv, waist_reduction_shoulders,
      waist_to_shoulders_ratio, waist_reduction_hips, waist_to_hips_ratio,
      hips_larger_than_shoulders, hips_to_shoulders_ratio]

/-- C4 amended: only the three named ratio computations
(`waist/shoulders`, `waist/hips`, `hips/shoulders`) are guarded with a
fallback of 1; the shoulder-hip and shoulder-bust percentage-difference
divisions and rule 4's `(shoulders - hips)/hips` are unguarded.  The
classifier is fault-free exactly under nonzero values of those three
denominators: `max(shoulders, hips)`, `max(shoulders, bust)` and
`hips`. -/
theorem classifier_total_iff_unguarded_denominators_nonzero
    (m : BodyMeasurements) (h1 : max m.shoulders m.hips ≠ 0)
    (h2 : max m.shoulders m.bust ≠ 0) (h3 : m.hips ≠ 0) :
    ∃ t, determine_body_shape m = some t :=
  ⟨classify_spec m, determine_body_shape_eq_classify_spec m h1 h2 h3⟩

/-- Witness for the amended C4 at the quadruple (3, 1, 1, 2). -/
theorem classifier_total_iff_unguarded_denominators_nonzero_witness :
    ∃ t, determine_body_shape ⟨3, 1, 1, 2⟩ = some t :=
  classifier_total_iff_unguarded_denominators_nonzero ⟨3, 1, 1, 2⟩
    (by norm_num) (by norm_num) (by norm_num)

/-- C5: for every landmark set with fewer than 25 points the ratio
calculator returns no `BodyRatios` (the caller then treats body-shape
analysis as unavailable and classification does not proceed), and for
every landmark set with at least 25 points it returns a (fully populated)
`BodyRatios`.  Holds for every square-root routine. -/
theorem ratio_calculator_requires_25_landmarks (sqrt : ℚ → ℚ)
    (fl : BodyLandmarks) :
    (fl.landmarks.length < 25 → calculate_body_ratios sqrt fl = none) ∧
    (25 ≤ fl.landmarks.length →
      ∃ r, calculate_body_ratios sqrt fl = some r) := by
  constructor
  · intro h
    rw [calculate_body_ratios, if_pos h]
  · intro h
    exact ⟨_, by rw [calculate_body_ratios, if_neg (by omega)]⟩

/-- Landmark set of length 20 (all points at the origin). -/
def short_landmarks : BodyLandmarks :=
  ⟨PhotoAngle.FRONT, List.replicate 20 origin, 640, 480, 1⟩

/-- Landmark set of length 25 (all points at the origin). -/
def full_landmarks : BodyLandmarks :=
  ⟨PhotoAngle.FRONT, List.replicate 25 origin, 640, 480, 1⟩

/-- Witness for C5: a landmark set of length 20 yields no ratios, one of
length 25 yields ratios. -/
theorem ratio_calculator_requires_25_landmarks_witness :
    calculate_body_ratios ratSqrt short_landmarks = none ∧
    ∃ r, calculate_body_ratios ratSqrt full_landmarks = some r :=
  ⟨(ratio_calculator_requires_25_landmarks ratSqrt short_landmarks).1
      (by simp [short_landmarks]),
   (ratio_calculator_requires_25_landmarks ratSqrt full_landmarks).2
      (by simp [full_landmarks])⟩

/-- C8: for every landmark set of length at least 25, with S the computed
shoulder distance (landmarks 11 and 12) and H the computed hip distance
(landmarks 23 and 24), the returned `shoulder_to_hip_ratio` equals `S / H`
when `H > 0` (exact rational equality, which subsumes the claimed 1e-9
tolerance) and equals exactly 1 when `H = 0`.  Holds for every square-root
routine. -/
theorem shoulder_to_hip_ratio_spec (sqrt : ℚ → ℚ) (fl : BodyLandmarks)
    (h25 : 25 ≤ fl.landmarks.length) :
    ∃ r, calculate_body_ratios sqrt fl = some r ∧
      (0 < hip_width sqrt fl →
        r.shoulder_to_hip_ratio = shoulder_width sqrt fl / hip_width sqrt fl) ∧
      (hip_width sqrt fl = 0 → r.shoulder_to_hip_ratio = 1) := by
  rw [calculate_body_ratios, if_neg (by omega)]
  refine ⟨_, rfl, fun h => ?_, fun h => ?_⟩
  · simp only [if_pos h]
  · simp [h]

/-- Landmark set of length 25 with distinct shoulder landmarks
(`(0,0)` and `(3,4)`, distance 5) and distinct hip landmarks
(`(0,0)` and `(4,0)`, distance 4). -/
def generic_landmarks : BodyLandmarks :=
  ⟨PhotoAngle.FRONT,
   [origin, origin, origin, origin, origin, origin, origin, origin,
    origin, origin, origin, origin, ⟨3, 4⟩, origin, origin, origin,
    origin, origin, origin, origin, origin, origin, origin, origin,
    ⟨4, 0⟩],
   640, 480, 1⟩

/-- Witness for C8 at `generic_landmarks` (shoulder distance 5, hip
distance 4, both perfect squares so `ratSqrt` is exact). -/
theorem shoulder_to_hip_ratio_spec_witness :
    ∃ r, calculate_body_ratios ratSqrt generic_landmarks = some r ∧
      r.shoulder_to_hip_ratio =
        shoulder_width ratSqrt generic_landmarks /
          hip_width ratSqrt generic_landmarks := by
  obtain ⟨r, hr, hpos, _⟩ :=
    shoulder_to_hip_ratio_spec ratSqrt generic_landmarks (by simp [generic_landmarks])
  have h16 : natSqrt (Int.toNat 16) = 4 := by decide
  have h1 : natSqrt 1 = 1 := by decide
  exact ⟨r, hr, hpos (by
    norm_num [hip_width, _calculate_distance, generic_landmarks, origin,
      ratSqrt, h16, h1])⟩

/-- C3 counterexample: `convert_ratios_to_measurements` does NOT guard the
division `shoulders / shoulder_to_hip_ratio` and has no `hips = shoulders`
fallback.  On the `BodyRatios` produced by the pipeline from a landmark
set whose shoulder landmarks coincide and whose hip landmarks are distinct
(shoulder width 0, hip width 4, hence `shoulder_to_hip_ratio = 0`), it
raises `ZeroDivisionError` (`none`) instead of always succeeding. -/
theorem measurement_converter_division_fault :
    calculate_body_ratios ratSqrt degenerate_landmarks =
      some ⟨0, 0, 1, 0, 0, 4⟩ ∧
    convert_ratios_to_measurements ⟨0, 0, 1, 0, 0, 4⟩ 36 = none := by
  have h0 : natSqrt (Int.toNat 0) = 0 := by decide
  have h0n : natSqrt 0 = 0 := by decide
  have h16 : natSqrt (Int.toNat 16) = 4 := by decide
  have h1 : natSqrt 1 = 1 := by decide
  constructor
  · norm_num [calculate_body_ratios, degenerate_landmarks, shoulder_width,
      hip_width, _estimate_waist_width, _calculate_distance, ratSqrt, origin,
      h0, h0n, h16, h1]
  · norm_num [convert_ratios_to_measurements, pydiv]

/-- C3 amended: `convert_ratios_to_measurements` succeeds exactly when
`shoulder_to_hip_ratio` is nonzero; when the ratio is zero (coincident
shoulder landmarks with distinct hip landmarks) the unguarded division
`shoulders / shoulderToHip` raises `ZeroDivisionError` — there is no
fallback of `hips = shoulders`. -/
theorem measurement_converter_succeeds_iff_ratio_nonzero (r : BodyRatios)
    (reference : ℚ) :
    (r.shoulder_to_hip_ratio = 0 →
      convert_ratios_to_measurements r reference = none) ∧
    (r.shoulder_to_hip_ratio ≠ 0 →
      ∃ m, convert_ratios_to_measurements r reference = some m ∧
        m.shoulders = reference ∧ m.bust = reference ∧
        m.waist = reference * r.waist_to_shoulder_ratio ∧
        m.hips = reference / r.shoulder_to_hip_ratio) := by
  constructor
  · intro h
    simp [convert_ratios_to_measurements, pydiv, h]
  · intro h
    rw [convert_ratios_to_measurements, pydiv_of_ne _ _ h, Option.some_bind]
    exact ⟨_, rfl, rfl, rfl, rfl, rfl⟩

/-- Witness for the amended C3: failure at a zero ratio, success at the
ratio record (1, 3/4, 3/4, 4, 3, 4) with reference 36. -/
theorem measurement_converter_succeeds_iff_ratio_nonzero_witness :
    convert_ratios_to_measurements ⟨0, 0, 1, 0, 0, 4⟩ 12 = none ∧
    ∃ m, convert_ratios_to_measurements ⟨1, 3/4, 3/4, 4, 3, 4⟩ 36 = some m ∧
      m.shoulders = 36 ∧ m.bust = 36 ∧ m.waist = 36 * (3/4 : ℚ) ∧
      m.hips = 36 / (1 : ℚ) :=
  ⟨(measurement_converter_succeeds_iff_ratio_nonzero ⟨0, 0, 1, 0, 0, 4⟩ 12).1 rfl,
   (measurement_converter_succeeds_iff_ratio_nonzero ⟨1, 3/4, 3/4, 4, 3, 4⟩ 36).2
      (by norm_num)⟩

/-- Converting any ratios whose waist-to-shoulder component is exactly
0.75 with a positive reference yields a measurement set whose waist
reduction from shoulders is exactly 25, defeating rule 1. -/
theorem convert_with_w2s_075 (r : BodyRatios) (R : ℚ)
    (hne : r.shoulder_to_hip_ratio ≠ 0)
    (hw : r.waist_to_shoulder_ratio = 0.75) (hR : 0 < R) :
    ∃ m, convert_ratios_to_measurements r R = some m ∧
      m.shoulders = R ∧ m.waist = 0.75 * R ∧
      waist_reduction_shoulders m = 25 ∧
      ¬ waist_reduction_shoulders m < 25 ∧ ¬ rectangle_rule m := by
  have hred : waist_reduction_shoulders
      ⟨R, R, R * r.waist_to_shoulder_ratio, R / r.shoulder_to_hip_ratio⟩ = 25 := by
    simp only [waist_reduction_shoulders, waist_to_shoulders_ratio]
    rw [if_pos hR, hw, mul_comm R (0.75 : ℚ), mul_div_assoc,
      div_self (ne_of_gt hR), mul_one]
    norm_num
  rw [convert_ratios_to_measurements, pydiv_of_ne _ _ hne, Option.some_bind]
  refine ⟨⟨R, R, R * r.waist_to_shoulder_ratio, R / r.shoulder_to_hip_ratio⟩,
    rfl, rfl, ?_, hred, by rw [hred]; norm_num, fun hrect => ?_⟩
  · rw [hw, mul_comm]
  · exact absurd hrect.1 (by rw [hred]; norm_num)

/-- C10: for every landmark set of length at least 25 whose computed
shoulder width S is positive, and every positive reference R, the
composed pipeline yields measurements with shoulders = R and
waist = 0.75 * R exactly (because the estimated waist width is exactly
0.75 * S), so the classifier's waist reduction from shoulders is exactly
25 and the strict rule-1 condition `waist_reduction_shoulders < 25` never
holds: rule 1 cannot fire on pipeline output, and RECTANGLE can only be
produced by the default rule.  Holds for every square-root routine. -/
theorem pipeline_waist_reduction_is_25 (sqrt : ℚ → ℚ) (fl : BodyLandmarks)
    (R : ℚ) (h25 : 25 ≤ fl.landmarks.length)
    (hS : 0 < shoulder_width sqrt fl) (hR : 0 < R) :
    ∃ r m, calculate_body_ratios sqrt fl = some r ∧
      convert_ratios_to_measurements r R = some m ∧
      m.shoulders = R ∧ m.waist = 0.75 * R ∧
      waist_reduction_shoulders m = 25 ∧
      ¬ waist_reduction_shoulders m < 25 ∧ ¬ rectangle_rule m := by
  have hcalcEx : ∃ r, calculate_body_ratios sqrt fl = some r ∧
      r.waist_to_shoulder_ratio = 0.75 ∧ r.shoulder_to_hip_ratio ≠ 0 := by
    rw [calculate_body_ratios, if_neg (by omega)]
    refine ⟨_, rfl, ?_, ?_⟩
    · dsimp only
      rw [if_pos hS]
      simp only [_estimate_waist_width]
      rw [mul_comm, mul_div_assoc, div_self (ne_of_gt hS), mul_one]
    · dsimp only
      split_ifs with h
      · exact ne_of_gt (div_pos hS h)
      · norm_num
  obtain ⟨r, hr, hw075, hne⟩ := hcalcEx
  obtain ⟨m, hm, hms, hmw, hred, hnlt, hnrect⟩ := convert_with_w2s_075 r R hne hw075 hR
  exact ⟨r, m, hr, hm, hms, hmw, hred, hnlt, hnrect⟩

/-- Witness for C10 at `generic_landmarks` (shoulder width 5 > 0) with
reference 36. -/
theorem pipeline_waist_reduction_is_25_witness :
    ∃ r m, calculate_body_ratios ratSqrt generic_landmarks = some r ∧
      convert_ratios_to_measurements r 36 = some m ∧
      m.shoulders = 36 ∧ m.waist = 0.75 * 36 ∧
      waist_reduction_shoulders m = 25 ∧
      ¬ waist_reduction_shoulders m < 25 ∧ ¬ rectangle_rule m := by
  have h25n : natSqrt (Int.toNat 25) = 5 := by decide
  have h1 : natSqrt 1 = 1 := by decide
  exact pipeline_waist_reduction_is_25 ratSqrt generic_landmarks 36
    (by simp [generic_landmarks])
    (by norm_num [shoulder_width, _calculate_distance, generic_landmarks, origin,
      ratSqrt, h25n, h1])
    (by norm_num)

/-- The occasion-branching outfit slot assignment of the generator,
factored out verbatim so that the generator's output can be equated with
an explicit record. -/
def outfit_items_src (rules : StylingRule) (occasion : Occasion) :
    List (String × String) :=
  if occasion ∈ [Occasion.WORK, Occasion.FORMAL_EVENT] then
    [("top", _select_from_list rules.tops.best "blazer or button-down"),
     ("bottom", _select_from_list rules.bottoms.pants "tailored pants"),
     ("dress_alternative", _select_from_list rules.dresses "sheath dress"),
     ("shoes", "professional heels or flats"),
     ("accessories", "minimal jewelry, structured bag")]
  else if occasion = Occasion.PARTY then
    [("dress", _select_from_list rules.dresses "cocktail dress"),
     ("top_alternative", _select_from_list rules.tops.best "dressy top"),
     ("bottom_alternative", _select_from_list rules.bottoms.skirts "dressy skirt"),
     ("shoes", "heels or dressy sandals"),
     ("accessories", "statement jewelry")]
  else if occasion = Occasion.DATE then
    [("dress", _select_from_list rules.dresses "wrap dress"),
     ("top_alternative", _select_from_list rules.tops.best "fitted top"),
     ("bottom_alternative", _select_from_list rules.bottoms.jeans "nice jeans"),
     ("shoes", "heels or ankle boots"),
     ("accessories", "delicate jewelry")]
  else
    [("top", _select_from_list rules.tops.best "casual top"),
     ("bottom", _select_from_list rules.bottoms.jeans "jeans"),
     ("shoes", "sneakers or comfortable flats"),
     ("accessories", "casual bag, minimal jewelry")]

/-- When the body-type lookup succeeds, the generator's output is the
explicit record below. -/
theorem generate_eq (p : UserProfile) (prefs : UserPreferences)
    (rule : StylingRule) (hrule : STYLING_RULES p.body_type = some rule) :
    generate_outfit_recommendations p prefs = Except.ok
      { body_shape := p.body_type.value
        occasion := prefs.occasion.value
        style_preference := prefs.style_preference.value
        description := rule.description
        styling_goals := rule.goals
        outfit := outfit_items_src rule prefs.occasion
        styling_tips :=
          { colors := rule.colors
            necklines := rule.tops.necklines.getD []
            avoid := rule.tops.avoid.getD [] } } := by
  simp only [generate_outfit_recommendations, outfit_items_src, hrule]

/-- C6: for every profile whose body type has a knowledge-base entry and
every preferences value whose occasion is WORK or FORMAL_EVENT, the
generated outfit's slot keys are exactly top, bottom, dress_alternative,
shoes, accessories (in that insertion order, so in particular as a set),
with the shoes and accessories slots fixed to the two constant strings.
The key list is the same constant for every profile and every
WORK/FORMAL_EVENT preferences value, so it is determined solely by the
occasion; the generator is a pure function, so re-invoking it with
identical inputs yields identical output by definition. -/
theorem work_formal_outfit_slots (p : UserProfile) (prefs : UserPreferences)
    (hkb : (STYLING_RULES p.body_type).isSome)
    (hocc : prefs.occasion = Occasion.WORK ∨
      prefs.occasion = Occasion.FORMAL_EVENT) :
    ∃ o, generate_outfit_recommendations p prefs = Except.ok o ∧
      o.outfit.map Prod.fst =
        ["top", "bottom", "dress_alternative", "shoes", "accessories"] ∧
      o.outfit.lookup "shoes" = some "professional heels or flats" ∧
      o.outfit.lookup "accessories" = some "minimal jewelry, structured bag" := by
  have hmem : prefs.occasion ∈ [Occasion.WORK, Occasion.FORMAL_EVENT] := by
    rcases hocc with h | h <;> simp [h]
  obtain ⟨rule, hrule⟩ : ∃ rule, STYLING_RULES p.body_type = some rule := by
    cases p.body_type <;> exact ⟨_, rfl⟩
  refine ⟨_, generate_eq p prefs rule hrule, ?_, ?_, ?_⟩ <;>
    simp [outfit_items_src, hmem, List.lookup]

/-- Profile with RECTANGLE body type and no optional attributes. -/
def profile_rect : UserProfile := ⟨BodyType.RECTANGLE, none, none, none, none⟩

/-- Preferences with occasion WORK. -/
def prefs_work : UserPreferences :=
  ⟨["blue"], StylePreference.CLASSIC, BudgetRange.MID, Occasion.WORK,
   none, none, none⟩

/-- Witness for C6 at a RECTANGLE profile with occasion WORK. -/
theorem work_formal_outfit_slots_witness :
    ∃ o, generate_outfit_recommendations profile_rect prefs_work = Except.ok o ∧
      o.outfit.map Prod.fst =
        ["top", "bottom", "dress_alternative", "shoes", "accessories"] ∧
      o.outfit.lookup "shoes" = some "professional heels or flats" ∧
      o.outfit.lookup "accessories" = some "minimal jewelry, structured bag" :=
  work_formal_outfit_slots profile_rect prefs_work (by rw [profile_rect]; rfl)
    (Or.inl rfl)

/-- C7: every one of the four `BodyType` members is a key of the styling
knowledge base, and consequently the generator never takes its error
branch (the branch that reports the body shape when the lookup fails):
for every profile and preferences it returns a recommendation.  The error
branch of the lookup is therefore unreachable for any valid `BodyType`
input, and the generator never silently defaults when the lookup fails —
its only non-error outcome goes through a present table entry. -/
theorem styling_rules_cover_all_body_types :
    (∀ b : BodyType, ∃ rule, STYLING_RULES b = some rule) ∧
    (∀ (p : UserProfile) (prefs : UserPreferences),
      ∃ o, generate_outfit_recommendations p prefs = Except.ok o) := by
  constructor
  · intro b
    cases b <;> exact ⟨_, rfl⟩
  · intro p prefs
    obtain ⟨rule, hrule⟩ : ∃ rule, STYLING_RULES p.body_type = some rule := by
      cases p.body_type <;> exact ⟨_, rfl⟩
    exact ⟨_, generate_eq p prefs rule hrule⟩

/-- C9 counterexample: the INVERTED_TRIANGLE entry's tops sub-dict has no
necklines key, and the TRIANGLE entry's tops sub-dict has no avoid key,
so not every knowledge-base entry carries best, necklines and avoid lists;
accordingly the generator's styling tips for an INVERTED_TRIANGLE profile
contain the empty necklines list (the `.get` default), not a tops-level
necklines list of the entry. -/
theorem inverted_triangle_tops_missing_necklines :
    STYLING_RULES BodyType.INVERTED_TRIANGLE = some inverted_triangle_styling ∧
    inverted_triangle_styling.tops.necklines = none ∧
    triangle_styling.tops.avoid = none ∧
    (generate_outfit_recommendations
        ⟨BodyType.INVERTED_TRIANGLE, none, none, none, none⟩
        prefs_work).map (fun o => o.styling_tips.necklines) =
      Except.ok [] := by
  refine ⟨rfl, rfl, rfl, ?_⟩
  rw [generate_eq ⟨BodyType.INVERTED_TRIANGLE, none, none, none, none⟩
    prefs_work inverted_triangle_styling rfl]
  rfl

/-- C9 amended: every knowledge-base entry conforms to the `StylingRule`
record and its tops component always contains a best list, but the
tops-level necklines list is absent for INVERTED_TRIANGLE and the
tops-level avoid list is absent for TRIANGLE.  The generator's styling
tips return the entry's necklines and avoid lists in full (no truncation)
when present, and the empty list (the `dict.get` default) when absent. -/
theorem styling_tips_return_full_lists (p : UserProfile)
    (prefs : UserPreferences) (rule : StylingRule)
    (hrule : STYLING_RULES p.body_type = some rule) :
    ∃ o, generate_outfit_recommendations p prefs = Except.ok o ∧
      o.styling_tips.necklines = rule.tops.necklines.getD [] ∧
      o.styling_tips.avoid = rule.tops.avoid.getD [] ∧
      o.styling_tips.colors = rule.colors :=
  ⟨_, generate_eq p prefs rule hrule, rfl, rfl, rfl⟩

/-- Witness for the amended C9 at a RECTANGLE profile with occasion
WORK. -/
theorem styling_tips_return_full_lists_witness :
    ∃ o, generate_outfit_recommendations profile_rect prefs_work = Except.ok o ∧
      o.styling_tips.necklines = rectangle_styling.tops.necklines.getD [] ∧
      o.styling_tips.avoid = rectangle_styling.tops.avoid.getD [] ∧
      o.styling_tips.colors = rectangle_styling.colors :=
  styling_tips_return_full_lists profile_rect prefs_work rectangle_styling rfl

end StyleAI
